import Mathlib

/-!
# Verification of the scroll-progress and active-section navigation engine

A shallow embedding, over exact rational arithmetic with an explicit
IEEE-style `NaN`/infinity layer, of the portfolio site's scroll engine:

* `useScrollProgress` / `useScrollSection` from `src/hooks/useScrollProgress.ts`
* the `Navigation` component's `handleScroll` and `handleNavClick` from
  `src/components/Navigation/Navigation.tsx`
* the `HomePage` hash-navigation effect from `src/pages/Home/HomePage.tsx`

JavaScript numbers are modelled as `JSNum`: either a finite rational or one
of the three non-finite values `nan`, `posInf`, `negInf`.  The two signed
zeros of IEEE 754 are identified (they compare equal in every JS comparison
used by this code); rounding is ignored, which is faithful here because the
quantities involved are small integers or single quotients of them.
-/

/-- A JavaScript number: a finite value (exact rational) or `NaN`/`±Infinity`. -/
inductive JSNum where
  | nan : JSNum
  | posInf : JSNum
  | negInf : JSNum
  | fin : ℚ → JSNum
deriving DecidableEq

/-- JavaScript division `x / y`.  Division by zero yields `±Infinity` for a
nonzero finite numerator and `NaN` for `0 / 0`; any `NaN` operand propagates. -/
def jsDiv : JSNum → JSNum → JSNum
  | JSNum.nan, _ => JSNum.nan
  | _, JSNum.nan => JSNum.nan
  | JSNum.fin x, JSNum.fin y =>
      if y = 0 then
        if 0 < x then JSNum.posInf
        else if x < 0 then JSNum.negInf
        else JSNum.nan
      else JSNum.fin (x / y)
  | JSNum.fin _, JSNum.posInf => JSNum.fin 0
  | JSNum.fin _, JSNum.negInf => JSNum.fin 0
  | JSNum.posInf, JSNum.fin y => if 0 ≤ y then JSNum.posInf else JSNum.negInf
  | JSNum.negInf, JSNum.fin y => if 0 ≤ y then JSNum.negInf else JSNum.posInf
  | JSNum.posInf, _ => JSNum.nan
  | JSNum.negInf, _ => JSNum.nan

/-- JavaScript `Math.min`: returns `NaN` if either argument is `NaN`. -/
def jsMin : JSNum → JSNum → JSNum
  | JSNum.nan, _ => JSNum.nan
  | _, JSNum.nan => JSNum.nan
  | JSNum.negInf, _ => JSNum.negInf
  | _, JSNum.negInf => JSNum.negInf
  | JSNum.posInf, b => b
  | a, JSNum.posInf => a
  | JSNum.fin x, JSNum.fin y => JSNum.fin (min x y)

/-- JavaScript `Math.max`: returns `NaN` if either argument is `NaN`. -/
def jsMax : JSNum → JSNum → JSNum
  | JSNum.nan, _ => JSNum.nan
  | _, JSNum.nan => JSNum.nan
  | JSNum.posInf, _ => JSNum.posInf
  | _, JSNum.posInf => JSNum.posInf
  | JSNum.negInf, b => b
  | a, JSNum.negInf => a
  | JSNum.fin x, JSNum.fin y => JSNum.fin (max x y)

/-- `true` exactly when the value is a finite number in `[0, 1]`. -/
def JSNum.inUnitInterval : JSNum → Bool
  | JSNum.fin p => decide (0 ≤ p ∧ p ≤ 1)
  | _ => false

/-- `calculateScrollProgress` from `useScrollProgress`
(`src/hooks/useScrollProgress.ts`, lines 7–12), as a function of the layout
inputs it reads: `scrollHeight` is `document.documentElement.scrollHeight`
(the spec's `documentHeight`), `windowHeight` is `window.innerHeight`
(the spec's `viewportHeight`), `scrollY` is `window.scrollY`.  The source:
`documentHeight = scrollHeight - windowHeight`;
`progress = Math.min(scrolled / documentHeight, 1)`. -/
def documentProgress (scrollHeight windowHeight scrollY : ℚ) : JSNum :=
  let documentHeight := scrollHeight - windowHeight
  let scrolled := scrollY
  jsMin (jsDiv (JSNum.fin scrolled) (JSNum.fin documentHeight)) (JSNum.fin 1)

/-- The layout rectangle of a DOM element as `getBoundingClientRect` reports
it: `top` is viewport-relative, `height` is nonnegative in real layouts but
kept unconstrained here.  `bottom` is the derived `top + height`. -/
structure Element where
  top : ℚ
  height : ℚ
deriving DecidableEq

/-- `rect.bottom = rect.top + rect.height` for a `DOMRect`. -/
def Element.bottom (e : Element) : ℚ := e.top + e.height

/-- A snapshot of `document.getElementById`: which elements are mounted,
with their current layout rectangles. -/
def Dom : Type := String → Option Element

/-- `calculateProgress` from `useScrollSection`
(`src/hooks/useScrollProgress.ts`, lines 32–49) as a state update on the
cached progress value `prev`: if the element is absent the handler returns
without calling `setProgress`, otherwise it stores the computed value.
Mirrors the source line by line (`end` is renamed `e`, a Lean keyword). -/
def calculateSectionProgress (dom : Dom) (windowHeight scrollY : ℚ)
    (sectionId : String) (prev : JSNum) : JSNum :=
  match dom sectionId with
  | none => prev
  | some sec =>
      let sectionTop := sec.top + scrollY
      let sectionHeight := sec.height
      let start := sectionTop - windowHeight
      let e := sectionTop + sectionHeight
      let scrollRange := e - start
      let currentScroll := scrollY - start
      jsMax (JSNum.fin 0) (jsMin (JSNum.fin 1)
        (jsDiv (JSNum.fin currentScroll) (JSNum.fin scrollRange)))

/-- The spec's `clamp(x, 0, 1)` on rationals. -/
def clamp01 (x : ℚ) : ℚ := max 0 (min x 1)

/-- A navigation entry pairing a section id with a display label
(`navItems` entries in `src/components/Navigation/Navigation.tsx`). -/
structure NavItem where
  id : String
  label : String
deriving DecidableEq

/-- The `navItems` array from `Navigation.tsx`, lines 7–14. -/
def navItems : List NavItem :=
  [⟨"hero", "Home"⟩, ⟨"work", "Work"⟩, ⟨"experience", "Experience"⟩,
   ⟨"skills", "Skills"⟩, ⟨"blog", "Blog"⟩, ⟨"contact", "Contact"⟩]

/-- `useState('hero')` — the initial `activeSection` value (`Navigation.tsx`,
line 18). -/
def initialActiveSection : String := "hero"

/-- The `Navigation` component's mutable state: the `scrolled` flag and the
`activeSection` id. -/
structure NavState where
  scrolled : Bool
  activeSection : String
deriving DecidableEq

/-- The section-finding loop inside `handleScroll` (`Navigation.tsx`,
lines 28–38): iterate the registered section ids in order; for the first
mounted element whose rect satisfies `rect.top <= 150 && rect.bottom >= 150`
return its id (the loop `break`s there); return `none` if no section
qualifies. -/
def findActiveSection (dom : Dom) : Option String :=
  (navItems.map fun item => item.id).findSome? fun sectionId =>
    match dom sectionId with
    | some element =>
        if element.top ≤ 150 ∧ element.bottom ≥ 150 then some sectionId else none
    | none => none

/-- `handleScroll` (`Navigation.tsx`, lines 23–40) as a state update:
`setScrolled(window.scrollY > 50)` always; the active-section evaluation runs
only when `isHomePage`, and `setActiveSection` is called only when the loop
finds a qualifying section. -/
def handleScroll (isHomePage : Bool) (dom : Dom) (scrollY : ℚ)
    (s : NavState) : NavState :=
  let s1 : NavState := { s with scrolled := decide (scrollY > 50) }
  if isHomePage then
    match findActiveSection dom with
    | some sectionId => { s1 with activeSection := sectionId }
    | none => s1
  else s1

/-- The browser events relevant to the navigator. -/
inductive BrowserEvent where
  | scroll : BrowserEvent
  | resize : BrowserEvent
deriving DecidableEq

/-- One event delivery to the mounted `Navigation` component.  The component
subscribes `handleScroll` to `scroll` events only (`Navigation.tsx`, line 42);
no `resize` listener is registered, so `resize` leaves the state untouched.
`isHomePage` is `location.pathname === '/'` (line 20). -/
def navigationStep (pathname : String) (dom : Dom) (scrollY : ℚ)
    (ev : BrowserEvent) (s : NavState) : NavState :=
  match ev with
  | BrowserEvent.scroll => handleScroll (decide (pathname = "/")) dom scrollY s
  | BrowserEvent.resize => s

/-- The spec's probe condition (§4.2 step 3): the section's viewport-relative
top is ≤ 150 and its bottom is ≥ 150. -/
def probeHit (dom : Dom) (sectionId : String) : Bool :=
  match dom sectionId with
  | some element => decide (element.top ≤ 150 ∧ element.bottom ≥ 150)
  | none => false

/-- The spec's evaluation algorithm (§4.2 steps 2–3), stated in its own
words: the first registered section, in order, satisfying the probe
condition. -/
def specFirstActive (dom : Dom) : Option String :=
  ((navItems.map fun item => item.id).filter (probeHit dom)).head?

/-- An imperative scroll request issued to the browser:
`smoothAlignTop id` smooth-scrolls the viewport so that the element `id`'s
top aligns with the viewport top (both `scrollIntoView({behavior:'smooth'})`
with its default `block:'start'` and the spec's nav-click scroll). -/
inductive ScrollAction where
  | smoothAlignTop : String → ScrollAction
deriving DecidableEq

/-- What one nav-item click produces: an optional scroll request, and an
optional page navigation to a URL. -/
structure ClickOutcome where
  scroll : Option ScrollAction
  navigation : Option String
deriving DecidableEq

/-- Modelled from the spec: the `scrollTo` utility imported from
`@utils/scrollTo` in `Navigation.tsx` (that file is absent from the
repository snapshot).  Per spec §4.2, it smoothly scrolls the viewport so
the target section's top aligns with the viewport top, and a target id with
no mounted element is silently skipped (§4.2 failure semantics). -/
def scrollTo (dom : Dom) (sectionId : String) : Option ScrollAction :=
  match dom sectionId with
  | some _ => some (ScrollAction.smoothAlignTop sectionId)
  | none => none

/-- A click on the nav item for `sectionId` (`Navigation.tsx`, lines 46–51
and 66–84): on the homepage the item is a `<button>`, so no navigation
occurs and `handleNavClick` calls `scrollTo(sectionId)`; on any other page
the item is a `<Link to={/#id}>`, so `handleNavClick`'s guard does nothing
and the link performs default navigation to `/#sectionId`. -/
def handleNavClick (pathname : String) (dom : Dom) (sectionId : String) :
    ClickOutcome :=
  if pathname = "/" then { scroll := scrollTo dom sectionId, navigation := none }
  else { scroll := none, navigation := some ("/#" ++ sectionId) }

/-- Result of the `HomePage` hash effect: either nothing happens, or a
callback is deferred by `delayMs` milliseconds which then issues the given
scroll request (`none` when the element lookup fails at fire time). -/
inductive HashOutcome where
  | noop : HashOutcome
  | deferred : ℕ → Option ScrollAction → HashOutcome
deriving DecidableEq

/-- The hash-navigation effect of `HomePage`
(`src/pages/Home/HomePage.tsx`, lines 32–40): if `location.hash` is truthy
(nonempty), defer by `setTimeout(..., 100)`; the fired callback looks up
`getElementById(hash.substring(1))` in the DOM as it stands then, and calls
`element?.scrollIntoView({behavior:'smooth'})` — a no-op when the element is
absent. -/
def handleHashNavigation (dom : Dom) (hash : String) : HashOutcome :=
  if hash = "" then HashOutcome.noop
  else
    let id := hash.drop 1
    HashOutcome.deferred 100
      (match dom id with
       | some _ => some (ScrollAction.smoothAlignTop id)
       | none => none)

/-- The concrete layout of spec §8: three stacked sections at absolute
ranges 0–800, 800–1600 and 1600–2400 px, mapped to the first three
registered ids; viewport-relative `top` is the absolute top minus
`scrollY`.  All other ids are unmounted. -/
def stackedDom (scrollY : ℚ) : Dom := fun sectionId =>
  if sectionId = "hero" then some ⟨0 - scrollY, 800⟩
  else if sectionId = "work" then some ⟨800 - scrollY, 800⟩
  else if sectionId = "experience" then some ⟨1600 - scrollY, 800⟩
  else none

/-! ## Helper lemmas -/

theorem findSome?_guard_eq_filter_head {α : Type} (p : α → Bool) (l : List α) :
    (l.findSome? fun a => if p a then some a else none) = (l.filter p).head? := by
  induction l with
  | nil => rfl
  | cons a t ih =>
      by_cases h : p a <;> simp [List.findSome?_cons, List.filter_cons, h, ih]

theorem exists_of_findSome?_eq_some {α β : Type} {f : α → Option β} {l : List α}
    {b : β} (h : l.findSome? f = some b) : ∃ a ∈ l, f a = some b := by
  induction l with
  | nil => simp [List.findSome?] at h
  | cons a t ih =>
      rw [List.findSome?_cons] at h
      cases hf : f a with
      | some c =>
          rw [hf] at h
          simp only [Option.some.injEq] at h
          exact ⟨a, List.mem_cons_self a t, by rw [hf, h]⟩
      | none =>
          rw [hf] at h
          obtain ⟨x, hx, hfx⟩ := ih h
          exact ⟨x, List.mem_cons_of_mem a hx, hfx⟩

/-- The per-section body of the `handleScroll` loop is the guard
`probeHit`. -/
theorem findActive_body_eq_guard (dom : Dom) (s : String) :
    (match dom s with
     | some element =>
         if element.top ≤ 150 ∧ element.bottom ≥ 150 then some s else none
     | none => none) = if probeHit dom s then some s else none := by
  cases h : dom s with
  | none => simp [probeHit, h]
  | some e =>
      by_cases hc : e.top ≤ 150 ∧ e.bottom ≥ 150 <;> simp [probeHit, h, hc]

/-- The loop in the source computes exactly the spec's
"first registered section satisfying the probe condition". -/
theorem findActiveSection_eq_spec (dom : Dom) :
    findActiveSection dom = specFirstActive dom := by
  unfold findActiveSection specFirstActive
  have hfun : (fun sectionId =>
      (match dom sectionId with
       | some element =>
           if element.top ≤ 150 ∧ element.bottom ≥ 150 then some sectionId
           else none
       | none => none)) =
      fun sectionId => if probeHit dom sectionId then some sectionId else none :=
    funext fun s => findActive_body_eq_guard dom s
  rw [hfun, findSome?_guard_eq_filter_head]

/-- `handleScroll`'s effect on the active-section state. -/
theorem handleScroll_activeSection (b : Bool) (dom : Dom) (y : ℚ) (s : NavState) :
    (handleScroll b dom y s).activeSection =
      if b then (findActiveSection dom).getD s.activeSection
      else s.activeSection := by
  unfold handleScroll
  cases b with
  | false => simp
  | true => cases h : findActiveSection dom <;> simp [h]

/-- With a nonzero denominator, `documentProgress` is the finite value
`min (scrollY / (scrollHeight - windowHeight)) 1`. -/
theorem documentProgress_fin (H W y : ℚ) (hd : H - W ≠ 0) :
    documentProgress H W y = JSNum.fin (min (y / (H - W)) 1) := by
  unfold documentProgress jsDiv
  simp [hd, jsMin]

/-! ## Claim theorems -/

/-- C1 (code bug exhibit): with the document exactly as tall as the viewport
(`scrollHeight = windowHeight = 800`) and `scrollY = 0`, the source's
`Math.min(scrolled / documentHeight, 1)` evaluates `0 / 0` and stores `NaN`:
it is not the `0` the claim requires, and not in `[0, 1]`. -/
theorem documentProgress_nan_on_short_document :
    documentProgress 800 800 0 = JSNum.nan ∧
    JSNum.inUnitInterval (documentProgress 800 800 0) = false ∧
    documentProgress 800 800 0 ≠ JSNum.fin 0 := by
  have h : documentProgress 800 800 0 = JSNum.nan := by
    norm_num [documentProgress, jsDiv, jsMin]
  refine ⟨h, by rw [h]; rfl, by rw [h]; exact fun hc => JSNum.noConfusion hc⟩

/-- C2 (counterexample): at `documentHeight = viewportHeight = 800`, the
scroll position `0` lies in `[0, documentHeight - viewportHeight] = [0, 0]`,
yet `documentProgress` is not a finite number in `[0, 1]` (it is `NaN`). -/
theorem documentProgress_counterexample_zero_range :
    (0 : ℚ) ≤ 0 ∧ (0 : ℚ) ≤ 800 - 800 ∧
    JSNum.inUnitInterval (documentProgress 800 800 0) = false := by
  refine ⟨le_refl 0, by norm_num, ?_⟩
  norm_num [documentProgress, jsDiv, jsMin, JSNum.inUnitInterval]

/-- C2 (amended): when the document is strictly taller than the viewport
(`windowHeight < scrollHeight`), for all `0 ≤ y₁ ≤ y₂ ≤ scrollHeight -
windowHeight` the progress values are finite, monotonically non-decreasing
in `scrollY`, and always within `[0, 1]`. -/
theorem documentProgress_monotone_unit_interval (H W y₁ y₂ : ℚ)
    (hHW : W < H) (h0 : 0 ≤ y₁) (h12 : y₁ ≤ y₂) (h2 : y₂ ≤ H - W) :
    ∃ p₁ p₂ : ℚ,
      documentProgress H W y₁ = JSNum.fin p₁ ∧
      documentProgress H W y₂ = JSNum.fin p₂ ∧
      p₁ ≤ p₂ ∧ 0 ≤ p₁ ∧ p₁ ≤ 1 ∧ 0 ≤ p₂ ∧ p₂ ≤ 1 := by
  have hdpos : 0 < H - W := by linarith
  have hd : H - W ≠ 0 := ne_of_gt hdpos
  refine ⟨min (y₁ / (H - W)) 1, min (y₂ / (H - W)) 1,
    documentProgress_fin H W y₁ hd, documentProgress_fin H W y₂ hd,
    ?_, ?_, ?_, ?_, ?_⟩
  · exact min_le_min (by gcongr) le_rfl
  · exact le_min (div_nonneg h0 hdpos.le) zero_le_one
  · exact min_le_right _ _
  · exact le_min (div_nonneg (le_trans h0 h12) hdpos.le) zero_le_one
  · exact min_le_right _ _

/-- C2 witness: a 2000px document in a 1000px viewport at scroll positions
500 and 1000. -/
theorem documentProgress_monotone_unit_interval_witness :
    ∃ p₁ p₂ : ℚ,
      documentProgress 2000 1000 500 = JSNum.fin p₁ ∧
      documentProgress 2000 1000 1000 = JSNum.fin p₂ ∧
      p₁ ≤ p₂ ∧ 0 ≤ p₁ ∧ p₁ ≤ 1 ∧ 0 ≤ p₂ ∧ p₂ ≤ 1 :=
  documentProgress_monotone_unit_interval 2000 1000 500 1000
    (by norm_num) (by norm_num) (by norm_num) (by norm_num)

/-- C3: for a mounted section (with a positive viewport height and
nonnegative element height, as in any real layout), `calculateProgress`
stores exactly `clamp((scrollY - start) / (end - start), 0, 1)` with
`start = sectionTop - viewportHeight` and `end = sectionTop +
sectionHeight`; in particular it is exactly `0` when the section's top
equals `scrollY + viewportHeight` and exactly `1` when the section's bottom
equals `scrollY`.  (`sectionTop` is `rect.top + scrollY` as in the source.) -/
theorem sectionProgress_eq_clamp (dom : Dom) (W y : ℚ) (sid : String)
    (el : Element) (prev : JSNum) (hel : dom sid = some el)
    (hW : 0 < W) (hh : 0 ≤ el.height) :
    (calculateSectionProgress dom W y sid prev =
       JSNum.fin (clamp01 ((y - ((el.top + y) - W)) /
         (((el.top + y) + el.height) - ((el.top + y) - W))))) ∧
    (el.top + y = y + W →
       calculateSectionProgress dom W y sid prev = JSNum.fin 0) ∧
    ((el.top + y) + el.height = y →
       calculateSectionProgress dom W y sid prev = JSNum.fin 1) := by
  have hrange : ((el.top + y) + el.height) - ((el.top + y) - W) = el.height + W := by
    ring
  have hrpos : (0 : ℚ) < el.height + W := by linarith
  have hden : ((el.top + y) + el.height) - ((el.top + y) - W) ≠ 0 := by
    rw [hrange]; exact ne_of_gt hrpos
  have hgen : calculateSectionProgress dom W y sid prev =
      JSNum.fin (max 0 (min 1 ((y - ((el.top + y) - W)) /
        (((el.top + y) + el.height) - ((el.top + y) - W))))) := by
    unfold calculateSectionProgress
    rw [hel]
    simp only [jsDiv, if_neg hden, jsMin, jsMax]
  refine ⟨?_, ?_, ?_⟩
  · rw [hgen, clamp01, min_comm]
  · intro htop
    have htW : el.top = W := by linarith
    rw [hgen]
    have hnum : y - ((el.top + y) - W) = 0 := by rw [htW]; ring
    rw [hnum, zero_div]
    norm_num
  · intro hbot
    have hnum : y - ((el.top + y) - W) =
        ((el.top + y) + el.height) - ((el.top + y) - W) := by linarith
    rw [hgen, hnum, div_self hden]
    norm_num

/-- C3 witness: a 800px-tall section whose top sits exactly one viewport
(1000px) below scroll position 0 — the moment its top reaches the viewport
bottom, where progress is exactly 0. -/
theorem sectionProgress_eq_clamp_witness :
    (calculateSectionProgress
        (fun s => if s = "work" then some ⟨1000, 800⟩ else none) 1000 0 "work"
        (JSNum.fin 0) =
       JSNum.fin (clamp01 ((0 - (((1000 : ℚ) + 0) - 1000)) /
         ((((1000 : ℚ) + 0) + 800) - (((1000 : ℚ) + 0) - 1000))))) ∧
    ((1000 : ℚ) + 0 = 0 + 1000 →
       calculateSectionProgress
        (fun s => if s = "work" then some ⟨1000, 800⟩ else none) 1000 0 "work"
        (JSNum.fin 0) = JSNum.fin 0) ∧
    (((1000 : ℚ) + 0) + 800 = 0 →
       calculateSectionProgress
        (fun s => if s = "work" then some ⟨1000, 800⟩ else none) 1000 0 "work"
        (JSNum.fin 0) = JSNum.fin 1) :=
  sectionProgress_eq_clamp
    (fun s => if s = "work" then some ⟨1000, 800⟩ else none) 1000 0 "work"
    ⟨1000, 800⟩ (JSNum.fin 0) (by simp) (by norm_num) (by norm_num)

/-- C4: when no element with the requested id is mounted, one evaluation of
`calculateProgress` returns the previous cached progress unchanged — the
handler is a total function, so no error is raised. -/
theorem sectionProgress_missing_element_keeps_prev (dom : Dom) (W y : ℚ)
    (sid : String) (prev : JSNum) (h : dom sid = none) :
    calculateSectionProgress dom W y sid prev = prev := by
  unfold calculateSectionProgress
  rw [h]

/-- C4 witness: an empty DOM leaves a cached progress of 1/3 untouched. -/
theorem sectionProgress_missing_element_keeps_prev_witness :
    calculateSectionProgress (fun _ => none) 1000 250 "skills"
      (JSNum.fin (1 / 3)) = JSNum.fin (1 / 3) :=
  sectionProgress_missing_element_keeps_prev (fun _ => none) 1000 250 "skills"
    (JSNum.fin (1 / 3)) rfl

/-- C5: on the section-bearing page, one scroll evaluation sets the active
section to the first registered section (in registration/page order) whose
viewport-relative top is ≤ 150 and bottom is ≥ 150, keeping the previous
value when none qualifies; on the spec's three stacked sections
(0–800, 800–1600, 1600–2400 px, mapped to the first three registered ids)
the active section is the first at `scrollY = 0`, the second at
`scrollY = 700` and the third at `scrollY = 2000`. -/
theorem activeSection_is_first_probe_hit :
    (∀ (dom : Dom) (y : ℚ) (s : NavState),
        (handleScroll true dom y s).activeSection =
          (specFirstActive dom).getD s.activeSection) ∧
    (∀ s : NavState,
        (handleScroll true (stackedDom 0) 0 s).activeSection = "hero") ∧
    (∀ s : NavState,
        (handleScroll true (stackedDom 700) 700 s).activeSection = "work") ∧
    (∀ s : NavState,
        (handleScroll true (stackedDom 2000) 2000 s).activeSection =
          "experience") := by
  have hmain : ∀ (dom : Dom) (y : ℚ) (s : NavState),
      (handleScroll true dom y s).activeSection =
        (specFirstActive dom).getD s.activeSection := by
    intro dom y s
    rw [handleScroll_activeSection, if_pos rfl, findActiveSection_eq_spec]
  refine ⟨hmain, ?_, ?_, ?_⟩ <;> intro s <;> rw [hmain, ← findActiveSection_eq_spec]
  · have : findActiveSection (stackedDom 0) = some "hero" := by
      simp [findActiveSection, stackedDom, navItems, Element.bottom, List.findSome?]
      norm_num
    rw [this]; rfl
  · have : findActiveSection (stackedDom 700) = some "work" := by
      simp [findActiveSection, stackedDom, navItems, Element.bottom, List.findSome?]
      norm_num
    rw [this]; rfl
  · have : findActiveSection (stackedDom 2000) = some "experience" := by
      simp [findActiveSection, stackedDom, navItems, Element.bottom, List.findSome?]
      norm_num
    rw [this]; rfl

/-- The registered section ids are pairwise distinct. -/
theorem nav_ids_nodup : (navItems.map fun item => item.id).Nodup := by
  simp [navItems, List.nodup_cons]

/-- C6: the active-section state is one identifier and the registered ids
are pairwise distinct, so at most one nav item is highlighted; and whenever
the evaluation finds no section satisfying the probe condition, the state is
left exactly as it was. -/
theorem active_unique_and_retained :
    (∀ a : String, (navItems.map fun item => item.id).count a ≤ 1) ∧
    (∀ (b : Bool) (dom : Dom) (y : ℚ) (s : NavState),
        specFirstActive dom = none →
        (handleScroll b dom y s).activeSection = s.activeSection) := by
  constructor
  · exact fun a => List.nodup_iff_count_le_one.mp nav_ids_nodup a
  · intro b dom y s hnone
    rw [handleScroll_activeSection, findActiveSection_eq_spec, hnone]
    cases b <;> rfl

/-- C6 witness: with nothing mounted, a scroll evaluation keeps the active
section at `"hero"`. -/
theorem active_unique_and_retained_witness :
    (navItems.map fun item => item.id).count "hero" ≤ 1 ∧
    (handleScroll true (fun _ => none) 0
        { scrolled := false, activeSection := "hero" }).activeSection = "hero" :=
  ⟨active_unique_and_retained.1 "hero",
   active_unique_and_retained.2 true (fun _ => none) 0
     { scrolled := false, activeSection := "hero" }
     (by simp [specFirstActive, probeHit, navItems])⟩

/-- C7: away from the root page (`location.pathname ≠ "/"`), neither a
scroll nor a resize event ever changes the active-section state. -/
theorem nonhome_page_never_tracks (pathname : String) (dom : Dom) (y : ℚ)
    (ev : BrowserEvent) (s : NavState) (h : pathname ≠ "/") :
    (navigationStep pathname dom y ev s).activeSection = s.activeSection := by
  cases ev with
  | scroll =>
      unfold navigationStep
      rw [handleScroll_activeSection]
      simp [h]
  | resize => rfl

/-- C7 witness: a scroll event on a project-detail route, with a section
element sitting right on the probe line, does not move the active section. -/
theorem nonhome_page_never_tracks_witness :
    (navigationStep "/projects/ecommerce-platform"
        (fun _ => some ⟨0, 800⟩) 700 BrowserEvent.scroll
        { scrolled := false, activeSection := "hero" }).activeSection = "hero" :=
  nonhome_page_never_tracks "/projects/ecommerce-platform"
    (fun _ => some ⟨0, 800⟩) 700 BrowserEvent.scroll
    { scrolled := false, activeSection := "hero" } (by simp)

/-- C8: clicking the nav item of a mounted section on the root page issues
the smooth scroll aligning the section's top with the viewport top and
navigates nowhere; on any other page it issues no scroll and performs the
default link navigation to the root page with the section id as fragment.
The homepage scroll uses the spec-modelled `scrollTo` utility. -/
theorem navClick_scrolls_on_home_navigates_elsewhere (dom : Dom)
    (sid : String) (el : Element) (p : String)
    (hel : dom sid = some el) (hp : p ≠ "/") :
    handleNavClick "/" dom sid =
      { scroll := some (ScrollAction.smoothAlignTop sid), navigation := none } ∧
    handleNavClick p dom sid =
      { scroll := none, navigation := some ("/#" ++ sid) } := by
  constructor
  · unfold handleNavClick scrollTo
    rw [if_pos rfl, hel]
  · unfold handleNavClick
    rw [if_neg hp]

/-- C8 witness: the "contact" nav item, clicked on the root page and on a
project-detail page. -/
theorem navClick_witness :
    handleNavClick "/" (fun s => if s = "contact" then some ⟨2000, 400⟩ else none)
        "contact" =
      { scroll := some (ScrollAction.smoothAlignTop "contact"),
        navigation := none } ∧
    handleNavClick "/projects/1"
        (fun s => if s = "contact" then some ⟨2000, 400⟩ else none) "contact" =
      { scroll := none, navigation := some ("/#" ++ "contact") } :=
  navClick_scrolls_on_home_navigates_elsewhere
    (fun s => if s = "contact" then some ⟨2000, 400⟩ else none)
    "contact" ⟨2000, 400⟩ "/projects/1" (by simp) (by simp)

/-- C9: loading the root page with a nonempty URL fragment defers the scroll
by a positive 100ms delay; when the element is mounted at fire time the
deferred callback issues the smooth scroll-into-view for it, and when no
element matches the fragment id the callback issues nothing — a silent
no-op. -/
theorem hash_navigation_deferred_and_silent (dom : Dom) (h : String)
    (hne : h ≠ "") :
    (∀ el, dom (h.drop 1) = some el →
        handleHashNavigation dom h =
          HashOutcome.deferred 100
            (some (ScrollAction.smoothAlignTop (h.drop 1))) ∧ 0 < 100) ∧
    (dom (h.drop 1) = none →
        handleHashNavigation dom h = HashOutcome.deferred 100 none) := by
  constructor
  · intro el hel
    refine ⟨?_, by norm_num⟩
    unfold handleHashNavigation
    rw [if_neg hne]
    simp only [hel]
  · intro hnone
    unfold handleHashNavigation
    rw [if_neg hne]
    simp only [hnone]

/-- C9 witness: `#blog` with the blog section mounted, and a mistyped
`#blag` fragment against an empty DOM. -/
theorem hash_navigation_witness :
    (handleHashNavigation (fun s => if s = "blog" then some ⟨0, 800⟩ else none)
        "#blog" =
      HashOutcome.deferred 100
        (some (ScrollAction.smoothAlignTop ("#blog".drop 1))) ∧ 0 < 100) ∧
    handleHashNavigation (fun _ => none) "#blag" =
      HashOutcome.deferred 100 none :=
  ⟨(hash_navigation_deferred_and_silent
      (fun s => if s = "blog" then some ⟨0, 800⟩ else none) "#blog"
      (by simp)).1 ⟨0, 800⟩ (by rfl),
   (hash_navigation_deferred_and_silent (fun _ => none) "#blag"
      (by simp)).2 rfl⟩

/-- C10: the active-section state starts at `"hero"`, a registered id, and
every scroll evaluation keeps it inside the registered id set
`{hero, work, experience, skills, blog, contact}`: the loop can only assign
an id drawn from `navItems`. -/
theorem activeSection_stays_registered :
    initialActiveSection ∈ (navItems.map fun item => item.id) ∧
    ∀ (b : Bool) (dom : Dom) (y : ℚ) (s : NavState),
      s.activeSection ∈ (navItems.map fun item => item.id) →
      (handleScroll b dom y s).activeSection ∈
        (navItems.map fun item => item.id) := by
  constructor
  · simp [initialActiveSection, navItems]
  · intro b dom y s hs
    rw [handleScroll_activeSection]
    cases b with
    | false => exact hs
    | true =>
        cases hfind : findActiveSection dom with
        | none => exact hs
        | some sid =>
            obtain ⟨a, ha, hfa⟩ := exists_of_findSome?_eq_some hfind
            have : sid = a := by
              revert hfa
              cases dom a with
              | none => intro hfa; exact absurd hfa (by simp)
              | some e =>
                  by_cases hc : e.top ≤ 150 ∧ e.bottom ≥ 150
                  · intro hfa
                    simp only [if_pos hc, Option.some.injEq] at hfa
                    exact hfa.symm
                  · intro hfa; exact absurd hfa (by simp [hc])
            rw [Option.getD_some, this]
            exact ha

/-- C10 witness: an evaluation on the stacked layout starting from the
initial state lands on a registered id. -/
theorem activeSection_stays_registered_witness :
    (handleScroll true (stackedDom 0) 0
        { scrolled := false, activeSection := "hero" }).activeSection ∈
      (navItems.map fun item => item.id) :=
  activeSection_stays_registered.2 true (stackedDom 0) 0
    { scrolled := false, activeSection := "hero" }
    (by simp [navItems])
